import Mathlib

/-!
Verification development for the Berlin Housing Monitor
(src/berlin_housing_monitor.py).

The Python program is shallowly embedded: optional numeric fields become
Option Rat (IEEE doubles are modelled as exact rationals), dictionaries
produced by the extractors become a structure whose fields are always
present (the extractors always store every key, possibly with value None,
which is modelled as Option.none), and the regular-expression searches of
the extractors are embedded as specialised leftmost-match backtracking
matchers over lists of characters.
-/

/-! ## Python-level helpers -/

/-- Python truthiness of an optional float: None and 0.0 are falsy. -/
def pyTruthy : Option ℚ → Bool
  | none => false
  | some q => if q = 0 then false else true

/-- Value of a list of decimal digit characters. -/
def digitsToNat (cs : List Char) : ℕ :=
  cs.foldl (fun n c => 10 * n + (c.toNat - 48)) 0

/-- Integer part, fractional part and fractional width read by Python
float(s) on strings made of digits and at most one decimal point (the
only shapes the monitor feeds it); anything else is a parse failure. -/
def pyFloatParts (cs : List Char) : Option (ℕ × ℕ × ℕ) :=
  if cs.all (fun c => c.isDigit || c = '.') ∧
     (cs.filter (fun c => c = '.')).length ≤ 1 ∧
     cs.any (fun c => c.isDigit) then
    some (digitsToNat (cs.takeWhile (fun c => c ≠ '.')),
          digitsToNat ((cs.dropWhile (fun c => c ≠ '.')).drop 1),
          ((cs.dropWhile (fun c => c ≠ '.')).drop 1).length)
  else none

/-- Rational value of the parts. -/
def partsToRat (p : ℕ × ℕ × ℕ) : ℚ :=
  (p.1 : ℚ) + (p.2.1 : ℚ) / (10 : ℚ) ^ p.2.2

/-- Python float(s) as the monitor uses it. -/
def pyFloatOfChars (cs : List Char) : Option ℚ :=
  (pyFloatParts cs).map partsToRat

/-- Python str.replace with single characters (replace every occurrence). -/
def pyReplaceCharL (cs : List Char) (a b : Char) : List Char :=
  cs.map (fun c => if c = a then b else c)

/-- Python s.replace(".", "", count): delete the first count dots; a
negative count deletes every dot. -/
def pyRemoveDots : List Char → ℤ → List Char
  | [], _ => []
  | c :: rest, count =>
    if c = '.' then
      if count = 0 then c :: pyRemoveDots rest 0
      else pyRemoveDots rest (count - 1)
    else c :: pyRemoveDots rest count

/-- Python text.count(".") for a string. -/
def pyCountDots (s : String) : ℕ :=
  (s.toList.filter (fun c => c = '.')).length

/-- listStartsWith needle hay: needle is an initial segment of hay. -/
def listStartsWith : List Char → List Char → Bool
  | [], _ => true
  | _ :: _, [] => false
  | a :: as, b :: bs => a = b && listStartsWith as bs

/-- listContains needle hay: needle occurs contiguously inside hay. -/
def listContains (needle : List Char) : List Char → Bool
  | [] => listStartsWith needle []
  | hay@(_ :: rest) => listStartsWith needle hay || listContains needle rest

/-! ## Embedded regular-expression searches

Each Python pattern used by the extractors is embedded as a matcher that
enumerates the candidate splits in the same priority order as the regex
engine (greedy quantifiers longest first, optional groups consumed first,
alternatives left to right), at each start position, scanning positions
left to right. -/

/-- Splits of a leading digit run: (taken, rest) with lo ≤ |taken| ≤ hi
digits, longest first — the backtracking order of a greedy bounded digit
quantifier. -/
def digitSplits (lo hi : ℕ) (cs : List Char) : List (List Char × List Char) :=
  let n := min hi (cs.takeWhile Char.isDigit).length
  (List.range (n + 1)).reverse.filterMap
    (fun k => if lo ≤ k then some (cs.take k, cs.drop k) else none)

/-- Backtracking choices of the optional group like a comma or dot
followed by one or more digits; trying the group first, then skipping it. -/
def sepDigitChoices (cs : List Char) : List (List Char × List Char) :=
  (match cs with
   | c :: rest =>
     if c = ',' ∨ c = '.' then
       (digitSplits 1 rest.length rest).map (fun p => (c :: p.1, p.2))
     else []
   | [] => []) ++ [([], cs)]

/-- Backtracking choices of an optional single comma-or-dot character. -/
def optSepChoices (cs : List Char) : List (List Char × List Char) :=
  (match cs with
   | c :: rest => if c = ',' ∨ c = '.' then [([c], rest)] else []
   | [] => []) ++ [([], cs)]

/-- The characters matched by a Python ASCII whitespace class. -/
def isPySpace (c : Char) : Bool :=
  c = ' ' || c = '\t' || c = '\n' || c = '\r' || c = '\x0b' || c = '\x0c'

/-- Tail of the size pattern: whitespace then the letter m then a squared
sign or the digit 2. -/
def tailSize (cs : List Char) : Bool :=
  match cs.dropWhile isPySpace with
  | 'm' :: c :: _ => c = '²' || c = '2'
  | ['m'] => false
  | _ => false

/-- Tail of the rooms pattern: whitespace then Zimmer or Zi followed by a
dot. -/
def tailRooms (cs : List Char) : Bool :=
  match cs.dropWhile isPySpace with
  | 'Z' :: 'i' :: 'm' :: 'm' :: 'e' :: 'r' :: _ => true
  | 'Z' :: 'i' :: '.' :: _ => true
  | _ => false

/-- Tail of the inberlinwohnen price pattern: whitespace then a euro sign,
EUR, or Euro. -/
def tailPriceIbw (cs : List Char) : Bool :=
  match cs.dropWhile isPySpace with
  | '€' :: _ => true
  | 'E' :: 'U' :: 'R' :: _ => true
  | 'E' :: 'u' :: 'r' :: 'o' :: _ => true
  | _ => false

/-- Tail of the HOWOGE price pattern: whitespace then a euro sign or EUR. -/
def tailPriceHowoge (cs : List Char) : Bool :=
  match cs.dropWhile isPySpace with
  | '€' :: _ => true
  | 'E' :: 'U' :: 'R' :: _ => true
  | _ => false

/-- Group captured by the size pattern when it matches at this position:
one or more digits, an optional separator-digits group, whitespace, then
the square-metre marker. -/
def groupSizeAt (cs : List Char) : Option (List Char) :=
  (digitSplits 1 cs.length cs).findSome? (fun p =>
    (sepDigitChoices p.2).findSome? (fun q =>
      if tailSize q.2 then some (p.1 ++ q.1) else none))

/-- Group captured by the rooms pattern when it matches at this position. -/
def groupRoomsAt (cs : List Char) : Option (List Char) :=
  (digitSplits 1 cs.length cs).findSome? (fun p =>
    (sepDigitChoices p.2).findSome? (fun q =>
      if tailRooms q.2 then some (p.1 ++ q.1) else none))

/-- Group captured by the price pattern when it matches at this position:
one to four digits, an optional single separator, zero to two digits,
whitespace, then the currency marker. euroWord selects whether the word
Euro is an accepted marker (it is for inberlinwohnen, not for HOWOGE). -/
def groupPriceAt (euroWord : Bool) (cs : List Char) : Option (List Char) :=
  (digitSplits 1 4 cs).findSome? (fun p =>
    (optSepChoices p.2).findSome? (fun q =>
      (digitSplits 0 2 q.2).findSome? (fun r =>
        if (if euroWord then tailPriceIbw r.2 else tailPriceHowoge r.2) then
          some (p.1 ++ q.1 ++ r.1)
        else none)))

/-- Python re.search: try each start position from the left and return
the first captured group. -/
def reSearch (f : List Char → Option (List Char)) : List Char → Option (List Char)
  | [] => f []
  | c :: rest =>
    match f (c :: rest) with
    | some g => some g
    | none => reSearch f rest

/-! ## Field extraction (check_inberlinwohnen lines 227-247,
check_howoge lines 518-537) -/

/-- Rooms extraction: search the rooms pattern, replace comma by dot,
coerce with float. -/
def extract_rooms (text : String) : Option ℚ :=
  (reSearch groupRoomsAt text.toList).bind
    (fun g => pyFloatOfChars (pyReplaceCharL g ',' '.'))

/-- Size extraction: search the size pattern, replace comma by dot,
coerce with float. -/
def extract_size (text : String) : Option ℚ :=
  (reSearch groupSizeAt text.toList).bind
    (fun g => pyFloatOfChars (pyReplaceCharL g ',' '.'))

/-- Warm-rent extraction of check_inberlinwohnen (line 244): search the
price pattern, replace comma by dot, then delete the first
text.count(".") - 1 dots from the group, then coerce with float. Note
that the dot count is taken over the whole surrounding text, not over the
captured group. -/
def extract_warm_rent_ibw (text : String) : Option ℚ :=
  (reSearch (groupPriceAt true) text.toList).bind
    (fun g => pyFloatOfChars
      (pyRemoveDots (pyReplaceCharL g ',' '.') ((pyCountDots text : ℤ) - 1)))

/-- Warm-rent extraction of check_howoge (line 534): identical shape, but
the currency marker alternatives are the euro sign and EUR only. -/
def extract_warm_rent_howoge (text : String) : Option ℚ :=
  (reSearch (groupPriceAt false) text.toList).bind
    (fun g => pyFloatOfChars
      (pyRemoveDots (pyReplaceCharL g ',' '.') ((pyCountDots text : ℤ) - 1)))

/-- WBS detection: case-insensitive search for WBS or
Wohnberechtigungsschein in the full listing text; absence means false. -/
def detect_wbs (text : String) : Bool :=
  let lower := text.toList.map Char.toLower
  listContains "wbs".toList lower ||
    listContains "wohnberechtigungsschein".toList lower

/-! ## Data model -/

/-- A listing record as built by every extractor: each dictionary key is
always stored, a missing value being None (lines 249-259, 400-410,
446-456, 539-549). -/
structure Apartment where
  company : String
  address : String
  rooms : Option ℚ
  size : Option ℚ
  warm_rent : Option ℚ
  cold_rent : Option ℚ
  requires_wbs : Bool
  url : String
  available_from : String
deriving DecidableEq, Repr

/-! ## User criteria (lines 22-36) -/

/-- CRITERIA with_wbs rooms_min. -/
def CRITERIA_with_wbs_rooms_min : ℚ := 1

/-- CRITERIA with_wbs rooms_max. -/
def CRITERIA_with_wbs_rooms_max : ℚ := 2

/-- CRITERIA with_wbs size_max. -/
def CRITERIA_with_wbs_size_max : ℚ := 50

/-- CRITERIA without_wbs price_max. -/
def CRITERIA_without_wbs_price_max : ℚ := 700

/-! ## Eligibility evaluator (matches_criteria, lines 130-165) -/

/-- The reason component of the matches_criteria result, one constructor
per message template in the source, carrying the interpolated numbers.
The coercionError constructor is the except branch of lines 163-165,
reached when float() is applied to an absent (None) rooms or size value
at lines 136-137; its message is the generic text
Error al verificar criterios followed by the exception. -/
inductive Reason where
  | sizeExceeds (size max : ℚ)
  | roomsOutOfRange (rooms : ℚ)
  | matchesWithWbs
  | noPriceSpecified
  | matchesWithoutWbs (warm rooms size : ℚ)
  | priceExceeds (warm max : ℚ)
  | coercionError
deriving DecidableEq, Repr

/-- matches_criteria (lines 130-165). The Python code first coerces
rooms and size with float(); an absent value (None) makes float() raise,
the exception is caught at line 163 and the result is
(False, generic error text). When both coerce, the WBS branch checks
size then rooms against the with_wbs criteria; the market branch returns
a non-match on absent warm rent, otherwise compares it to the
without_wbs price ceiling. -/
def matches_criteria (a : Apartment) : Bool × Reason :=
  match a.rooms, a.size with
  | some rooms, some size =>
    if a.requires_wbs then
      if size > CRITERIA_with_wbs_size_max then
        (false, Reason.sizeExceeds size CRITERIA_with_wbs_size_max)
      else if rooms < CRITERIA_with_wbs_rooms_min ∨ rooms > CRITERIA_with_wbs_rooms_max then
        (false, Reason.roomsOutOfRange rooms)
      else
        (true, Reason.matchesWithWbs)
    else
      match a.warm_rent with
      | none => (false, Reason.noPriceSpecified)
      | some w =>
        if w ≤ CRITERIA_without_wbs_price_max then
          (true, Reason.matchesWithoutWbs w rooms size)
        else
          (false, Reason.priceExceeds w CRITERIA_without_wbs_price_max)
  | _, _ => (false, Reason.coercionError)

/-- Predicate written from the words of the spec, for comparison with the
code: the reason templates that name a specific failed constraint (size
over limit, room count out of range, no price available, price over
ceiling). -/
def reasonNamesConstraint : Reason → Bool
  | Reason.sizeExceeds _ _ => true
  | Reason.roomsOutOfRange _ => true
  | Reason.noPriceSpecified => true
  | Reason.priceExceeds _ _ => true
  | _ => false

/-! ## Fingerprints (generate_apartment_id, lines 125-128) -/

/-- Strip trailing zero digits. -/
def stripTrailingZeroDigits (cs : List Char) : List Char :=
  (cs.reverse.dropWhile (fun c => c = '0')).reverse

/-- Pad a numeral with leading zeros to width k. -/
def padZeros (s : String) (k : ℕ) : String :=
  String.mk (List.replicate (k - s.length) '0') ++ s

/-- Python str() of a float with a terminating decimal expansion (every
numeric value the monitor manipulates): minimal decimal digits, at least
one fractional digit, as in 2.0 or 54.5. Rationals without a terminating
expansion cannot arise from float values; they get a fraction rendering. -/
def floatRepr (q : ℚ) : String :=
  let sign := if q < 0 then "-" else ""
  let n := q.num.natAbs
  let d := q.den
  match (List.range 40).find? (fun k => d ∣ 10 ^ k) with
  | some k =>
    let scaled := n * 10 ^ k / d
    let ip := scaled / 10 ^ k
    let fp := stripTrailingZeroDigits (padZeros (toString (scaled % 10 ^ k)) k).toList
    sign ++ toString ip ++ "." ++ (if fp.isEmpty then "0" else String.mk fp)
  | none => sign ++ toString n ++ "/" ++ toString d

/-- Python str() of an optional float as interpolated by an f-string:
None prints as the four letters None. -/
def pyStrOpt : Option ℚ → String
  | none => "None"
  | some q => floatRepr q

/-- The digest of line 128, hashlib.md5(key.encode()).hexdigest(): an
external deterministic digest of the key string. The program relies only
on its determinism (equal keys give equal digests), which is what this
concrete stand-in models; the md5 bit-mixing itself is not relied on. -/
def md5_hex (s : String) : String :=
  toString (s.toList.foldl (fun h c => (h * 131 + c.toNat) % (2 ^ 64)) 0)

/-- generate_apartment_id (lines 125-128): digest of the f-string
company _ address _ rooms _ size; every other field is ignored. -/
def generate_apartment_id (company : String) (a : Apartment) : String :=
  md5_hex (company ++ "_" ++ a.address ++ "_" ++ pyStrOpt a.rooms ++ "_" ++ pyStrOpt a.size)

/-! ## Extractor item construction -/

/-- One listing of check_inberlinwohnen (lines 192-263): company,
address and url come from the markup (modelled as parameters), rooms,
size and warm rent are extracted from the listing text, and the record
is kept only when the url is truthy and at least one of rooms, size,
warm rent is truthy (line 262). -/
def check_inberlinwohnen_item (company address url text : String) : List Apartment :=
  let rooms := extract_rooms text
  let size := extract_size text
  let warm_rent := extract_warm_rent_ibw text
  let apt : Apartment :=
    { company := company
      address := address
      rooms := rooms
      size := size
      warm_rent := warm_rent
      cold_rent := none
      requires_wbs := detect_wbs text
      url := url
      available_from := "ab sofort" }
  if url ≠ "" ∧ (pyTruthy rooms || pyTruthy size || pyTruthy warm_rent) then
    [apt]
  else []

/-- One JSON item of the degewo search API (lines 399-410). -/
structure DegewoItem where
  street : Option String
  houseNumber : Option String
  district : Option String
  rooms : Option ℚ
  area : Option ℚ
  rentTotal : Option ℚ
  rentBase : Option ℚ
  wbsRequired : Option Bool
  itemId : Option String
  availableFrom : Option String
deriving DecidableEq, Repr

/-- Python str() of an optional string in an f-string: None prints as
the four letters None. -/
def pyStrOptStr : Option String → String
  | none => "None"
  | some s => s

/-- Record built for one degewo API item (lines 400-410). -/
def check_degewo_api_item (it : DegewoItem) : Apartment :=
  { company := "degewo"
    address := (it.street.getD "") ++ " " ++ (it.houseNumber.getD "") ++ ", " ++ (it.district.getD "")
    rooms := it.rooms
    size := it.area
    warm_rent := it.rentTotal
    cold_rent := it.rentBase
    requires_wbs := it.wbsRequired.getD false
    url := "https://immosuche.degewo.de/de/search/details/" ++ pyStrOptStr it.itemId
    available_from := it.availableFrom.getD "ab sofort" }

/-- The degewo API branch appends every item unconditionally
(line 411); there is no drop rule on this path. -/
def check_degewo_api (items : List DegewoItem) : List Apartment :=
  items.map check_degewo_api_item

/-- The drop rule of the degewo HTML fallback (line 459): keep when any
of rooms, size, warm rent is truthy. -/
def check_degewo_html_keep (a : Apartment) : Bool :=
  pyTruthy a.rooms || pyTruthy a.size || pyTruthy a.warm_rent

/-- One listing of check_howoge (lines 497-551): address and url come
from the link markup (modelled as parameters), rooms, size and warm rent
are extracted from the container text, and the record is appended
unconditionally (line 551) — there is no drop rule. -/
def check_howoge_item (address url text : String) : Apartment :=
  { company := "HOWOGE"
    address := address
    rooms := extract_rooms text
    size := extract_size text
    warm_rent := extract_warm_rent_howoge text
    cold_rent := none
    requires_wbs := detect_wbs text
    url := url
    available_from := "ab sofort" }

/-! ## Orchestrator (main, lines 658-688) -/

/-- The fingerprint main computes for a record (line 659): the company
passed to generate_apartment_id is the record's own company field. -/
def runId (a : Apartment) : String :=
  generate_apartment_id a.company a

/-- State of the per-record loop of main, with the evaluated and
notified records kept as ghost logs so that the at-most-once properties
can be stated. -/
structure RunResult where
  seen : Finset String
  evaluated : List Apartment
  notified : List Apartment
  newMatches : ℕ
deriving DecidableEq

/-- One iteration of the loop (lines 658-685): skip when the fingerprint
is already seen; otherwise evaluate the criteria, dispatch a
notification on a match, and mark the fingerprint seen regardless of the
outcome. -/
def processOne (st : RunResult) (a : Apartment) : RunResult :=
  if runId a ∈ st.seen then st
  else
    { seen := insert (runId a) st.seen
      evaluated := st.evaluated ++ [a]
      notified := if (matches_criteria a).1 then st.notified ++ [a] else st.notified
      newMatches := if (matches_criteria a).1 then st.newMatches + 1 else st.newMatches }

/-- The whole per-record loop of main over the concatenated extractor
output, starting from the loaded seen-set. -/
def processRun (apts : List Apartment) (seen0 : Finset String) : RunResult :=
  apts.foldl processOne ⟨seen0, [], [], 0⟩

/-! ## Seen-set persistence (lines 106-123) -/

/-- save_seen_apartments, data part: the apartments array written by
json.dump is list(apartments), an enumeration of the set; modelled by
the canonical sorted enumeration. -/
def save_seen_apartments (s : Finset String) : List String :=
  s.sort (· ≤ ·)

/-- load_seen_apartments, data part: set(data.get(apartments, [])). -/
def load_seen_apartments (l : List String) : Finset String :=
  l.toFinset

/-- The serialized file content written by json.dump: a JSON object
holding the apartments array; only its dependence on the set and its
being a nonempty text matter here. -/
def serialize_seen (s : Finset String) : String :=
  "\x7b\"apartments\": [" ++ String.intercalate ", " (save_seen_apartments s) ++ "]\x7d"

/-- File-system operations performed by save_seen_apartments. -/
inductive FileOp where
  | truncate
  | writeAll (content : String)
deriving DecidableEq, Repr

/-- The operation sequence of save_seen_apartments (lines 120-121):
open with mode w truncates seen_apartments.json in place, then
json.dump writes the new content. There is no temporary file and no
rename. -/
def save_seen_apartments_ops (s : Finset String) : List FileOp :=
  [FileOp.truncate, FileOp.writeAll (serialize_seen s)]

/-- Effect of one file operation on the file content. -/
def applyFileOp : Option String → FileOp → Option String
  | _, FileOp.truncate => some ""
  | _, FileOp.writeAll c => some c

/-- Effect of a sequence of file operations; an interruption is modelled
by running only a prefix of the sequence. -/
def runFileOps (f : Option String) (ops : List FileOp) : Option String :=
  ops.foldl applyFileOp f

/-! ## Orchestrator lemmas -/

/-- Fingerprints of the records evaluated so far. -/
def evalIds (st : RunResult) : List String :=
  st.evaluated.map runId

/-- Loop invariant of main: no fingerprint is evaluated twice, evaluated
fingerprints were not in the loaded seen-set, and the current seen-set is
the loaded one plus exactly the evaluated fingerprints. -/
def RunInv (seen0 : Finset String) (st : RunResult) : Prop :=
  (evalIds st).Nodup ∧
  (∀ id ∈ evalIds st, id ∉ seen0) ∧
  st.seen = seen0 ∪ (evalIds st).toFinset

lemma processOne_seen_subset (st : RunResult) (a : Apartment) :
    st.seen ⊆ (processOne st a).seen := by
  unfold processOne
  split
  · exact Finset.Subset.refl _
  · exact Finset.subset_insert _ _

lemma foldl_seen_subset (l : List Apartment) :
    ∀ st : RunResult, st.seen ⊆ (l.foldl processOne st).seen := by
  induction l with
  | nil => intro st; simp
  | cons a t ih =>
    intro st
    rw [List.foldl_cons]
    exact (processOne_seen_subset st a).trans (ih _)

lemma runId_mem_processOne (st : RunResult) (a : Apartment) :
    runId a ∈ (processOne st a).seen := by
  unfold processOne
  split
  next h => exact h
  next h => exact Finset.mem_insert_self _ _

lemma runId_mem_foldl (l : List Apartment) :
    ∀ (st : RunResult) (a : Apartment), a ∈ l → runId a ∈ (l.foldl processOne st).seen := by
  induction l with
  | nil => intro st a h; simp at h
  | cons b t ih =>
    intro st a h
    rw [List.foldl_cons]
    rcases List.mem_cons.mp h with h1 | h1
    · subst h1
      exact foldl_seen_subset t (processOne st a) (runId_mem_processOne st a)
    · exact ih _ a h1

lemma foldl_all_seen (l : List Apartment) :
    ∀ st : RunResult, (∀ a ∈ l, runId a ∈ st.seen) → l.foldl processOne st = st := by
  induction l with
  | nil => intro st _; rfl
  | cons b t ih =>
    intro st h
    rw [List.foldl_cons]
    have hb : processOne st b = st := by
      unfold processOne
      rw [if_pos (h b (List.mem_cons_self b t))]
    rw [hb]
    exact ih st (fun a ha => h a (List.mem_cons_of_mem _ ha))

lemma runInv_processOne (seen0 : Finset String) (st : RunResult) (a : Apartment)
    (h : RunInv seen0 st) : RunInv seen0 (processOne st a) := by
  obtain ⟨h1, h2, h3⟩ := h
  unfold processOne
  split
  next hmem => exact ⟨h1, h2, h3⟩
  next hmem =>
    have hnotin : runId a ∉ evalIds st := by
      intro hx
      exact hmem (h3 ▸ Finset.mem_union_right _ (List.mem_toFinset.mpr hx))
    refine ⟨?_, ?_, ?_⟩
    · show (List.map runId (st.evaluated ++ [a])).Nodup
      rw [List.map_append]
      refine List.Nodup.append h1 (List.nodup_singleton _) ?_
      intro x hx hx2
      rw [List.map_singleton, List.mem_singleton] at hx2
      subst hx2
      exact hnotin hx
    · intro id hid
      have hid2 : id ∈ List.map runId (st.evaluated ++ [a]) := hid
      rw [List.map_append] at hid2
      rcases List.mem_append.mp hid2 with hl | hl
      · exact h2 id hl
      · rw [List.map_singleton, List.mem_singleton] at hl
        subst hl
        intro h0
        exact hmem (h3 ▸ Finset.mem_union_left _ h0)
    · show insert (runId a) st.seen = seen0 ∪ (List.map runId (st.evaluated ++ [a])).toFinset
      rw [List.map_append, List.toFinset_append, h3]
      ext y
      simp only [Finset.mem_insert, Finset.mem_union, List.mem_toFinset, List.map_singleton,
        List.toFinset_cons, List.toFinset_nil, insert_emptyc_eq, Finset.mem_singleton]
      tauto

lemma runInv_foldl (seen0 : Finset String) (l : List Apartment) :
    ∀ st : RunResult, RunInv seen0 st → RunInv seen0 (l.foldl processOne st) := by
  induction l with
  | nil => intro st h; exact h
  | cons b t ih =>
    intro st h
    rw [List.foldl_cons]
    exact ih _ (runInv_processOne seen0 st b h)

/-! ## Claim theorems -/

/-- C6: for any two apartment records with identical address, rooms and
size, generate_apartment_id applied with the same company string returns
the identical fingerprint, whatever every other field holds: the
fingerprint is a function of the company and those three record fields
only. -/
theorem generate_apartment_id_deterministic (c : String) (a1 a2 : Apartment)
    (ha : a1.address = a2.address) (hr : a1.rooms = a2.rooms) (hs : a1.size = a2.size) :
    generate_apartment_id c a1 = generate_apartment_id c a2 := by
  unfold generate_apartment_id
  rw [ha, hr, hs]

def aptC6a : Apartment :=
  ⟨"degewo", "Musterstr. 1, 12345 Berlin", some 2, some 45, some 650, some 500, false,
    "https://one", "ab sofort"⟩

def aptC6b : Apartment :=
  ⟨"degewo", "Musterstr. 1, 12345 Berlin", some 2, some 45, some 999, none, true,
    "https://two", "2026-01-01"⟩

/-- Witness for C6: two records sharing company, address, rooms and size
but differing in warm rent, cold rent, WBS flag, URL and availability
receive the same fingerprint. -/
theorem generate_apartment_id_deterministic_witness :
    generate_apartment_id "degewo" aptC6a = generate_apartment_id "degewo" aptC6b :=
  generate_apartment_id_deterministic "degewo" aptC6a aptC6b rfl rfl rfl

/-- C7: within one orchestrator run, each distinct fingerprint is
evaluated against the criteria at most once (the evaluated fingerprints
form a list without duplicates, none of them already seen), and every
record whose fingerprint is not in the loaded seen-set has its
fingerprint evaluated exactly once and present in the final seen-set,
regardless of the match outcome. -/
theorem run_marks_each_fingerprint_once (apts : List Apartment) (seen0 : Finset String) :
    (evalIds (processRun apts seen0)).Nodup ∧
    (∀ id ∈ evalIds (processRun apts seen0), id ∉ seen0) ∧
    (∀ a ∈ apts, runId a ∉ seen0 →
      (evalIds (processRun apts seen0)).count (runId a) = 1 ∧
      runId a ∈ (processRun apts seen0).seen) := by
  have hInit : RunInv seen0 ⟨seen0, [], [], 0⟩ := by
    refine ⟨List.nodup_nil, ?_, ?_⟩
    · intro id hid
      simp [evalIds] at hid
    · simp [evalIds]
  have hInv : RunInv seen0 (processRun apts seen0) :=
    runInv_foldl seen0 apts ⟨seen0, [], [], 0⟩ hInit
  obtain ⟨h1, h2, h3⟩ := hInv
  refine ⟨h1, h2, ?_⟩
  intro a ha hnot
  have hseen : runId a ∈ (processRun apts seen0).seen :=
    runId_mem_foldl apts ⟨seen0, [], [], 0⟩ a ha
  have hmem : runId a ∈ evalIds (processRun apts seen0) := by
    rw [h3] at hseen
    rcases Finset.mem_union.mp hseen with h | h
    · exact absurd h hnot
    · exact List.mem_toFinset.mp h
  exact ⟨List.count_eq_one_of_mem h1 hmem,
    runId_mem_foldl apts ⟨seen0, [], [], 0⟩ a ha⟩

def aptC7 : Apartment :=
  ⟨"WBM", "Beispielweg 3", some 2, some 40, some 600, none, false, "https://w", "ab sofort"⟩

/-- Witness for C7 at a concrete one-record run from an empty seen-set. -/
theorem run_marks_each_fingerprint_once_witness :
    (evalIds (processRun [aptC7] ∅)).count (runId aptC7) = 1 ∧
    runId aptC7 ∈ (processRun [aptC7] ∅).seen :=
  (run_marks_each_fingerprint_once [aptC7] ∅).2.2 aptC7 (List.mem_singleton_self _)
    (Finset.not_mem_empty _)

/-- C8: a second orchestrator run over the same record list, with the
seen-set of the first run saved and loaded in between (a faithful
round-trip), skips every record: nothing is evaluated or notified, the
new-match count is zero and the seen-set is unchanged. -/
theorem second_run_yields_nothing_new (apts : List Apartment) (seen0 : Finset String) :
    load_seen_apartments (save_seen_apartments ((processRun apts seen0).seen)) =
      (processRun apts seen0).seen ∧
    processRun apts ((processRun apts seen0).seen) =
      ⟨(processRun apts seen0).seen, [], [], 0⟩ := by
  constructor
  · exact Finset.sort_toFinset _ _
  · exact foldl_all_seen apts ⟨(processRun apts seen0).seen, [], [], 0⟩
      (fun a ha => runId_mem_foldl apts ⟨seen0, [], [], 0⟩ a ha)

/-- C10: for any company string, two records whose address, rooms and
size stringify identically (in particular both absent) receive the same
fingerprint whatever their rents, URLs and remaining fields, and in a run
over both only the first is evaluated and only it can be notified; the
later one is silently skipped as already seen. -/
theorem colliding_fingerprints_shadow (c : String) (a1 a2 : Apartment)
    (hc1 : a1.company = c) (hc2 : a2.company = c)
    (ha : a1.address = a2.address)
    (hr : pyStrOpt a1.rooms = pyStrOpt a2.rooms)
    (hs : pyStrOpt a1.size = pyStrOpt a2.size) :
    generate_apartment_id c a1 = generate_apartment_id c a2 ∧
    (processRun [a1, a2] ∅).evaluated = [a1] ∧
    (processRun [a1, a2] ∅).notified =
      (if (matches_criteria a1).1 then [a1] else []) := by
  have hid : generate_apartment_id c a1 = generate_apartment_id c a2 := by
    unfold generate_apartment_id
    rw [ha, hr, hs]
  have hrid : runId a2 = runId a1 := by
    unfold runId
    rw [hc1, hc2, hid]
  have h1 : processOne ⟨∅, [], [], 0⟩ a1 =
      ⟨{runId a1}, [a1], if (matches_criteria a1).1 then [a1] else [],
        if (matches_criteria a1).1 then 1 else 0⟩ := by
    unfold processOne
    rw [if_neg (Finset.not_mem_empty _)]
    simp
  have h2 : processOne
      (⟨{runId a1}, [a1], if (matches_criteria a1).1 then [a1] else [],
        if (matches_criteria a1).1 then 1 else 0⟩ : RunResult) a2 =
      ⟨{runId a1}, [a1], if (matches_criteria a1).1 then [a1] else [],
        if (matches_criteria a1).1 then 1 else 0⟩ := by
    unfold processOne
    rw [if_pos]
    rw [hrid]
    exact Finset.mem_singleton_self _
  refine ⟨hid, ?_, ?_⟩ <;>
    · show _ = _
      unfold processRun
      rw [List.foldl_cons, h1, List.foldl_cons, h2, List.foldl_nil]

def aptC10a : Apartment :=
  ⟨"HOWOGE", "N/A", none, none, some 400, none, false, "https://one", "ab sofort"⟩

def aptC10b : Apartment :=
  ⟨"HOWOGE", "N/A", none, none, some 999, none, false, "https://two", "ab sofort"⟩

/-- Witness for C10: two all-absent records with different rents and
URLs collide; only the first is evaluated. -/
theorem colliding_fingerprints_shadow_witness :
    generate_apartment_id "HOWOGE" aptC10a = generate_apartment_id "HOWOGE" aptC10b ∧
    (processRun [aptC10a, aptC10b] ∅).evaluated = [aptC10a] ∧
    (processRun [aptC10a, aptC10b] ∅).notified =
      (if (matches_criteria aptC10a).1 then [aptC10a] else []) :=
  colliding_fingerprints_shadow "HOWOGE" aptC10a aptC10b rfl rfl rfl rfl rfl

lemma processRun_single (a : Apartment) :
    processRun [a] ∅ =
      ⟨{runId a}, [a], if (matches_criteria a).1 then [a] else [],
        if (matches_criteria a).1 then 1 else 0⟩ := by
  unfold processRun
  rw [List.foldl_cons, List.foldl_nil]
  unfold processOne
  rw [if_neg (Finset.not_mem_empty _)]
  simp

/-- C3: on the subsidy branch with rooms and size present, the record
matches exactly when rooms lies in the inclusive range one to two and
size is at most fifty, and the warm rent never influences the result on
this branch. -/
theorem wbs_branch_boundary (a : Apartment) (r s : ℚ)
    (hw : a.requires_wbs = true) (hr : a.rooms = some r) (hs : a.size = some s) :
    ((matches_criteria a).1 = true ↔ (1 ≤ r ∧ r ≤ 2 ∧ s ≤ 50)) ∧
    (∀ w : Option ℚ, matches_criteria { a with warm_rent := w } = matches_criteria a) := by
  constructor
  · simp only [matches_criteria, hr, hs, hw, CRITERIA_with_wbs_size_max,
      CRITERIA_with_wbs_rooms_min, CRITERIA_with_wbs_rooms_max, if_true]
    split_ifs with h1 h2
    · simp only [Bool.false_eq_true, false_iff, not_and]
      intro _ _ hs2
      linarith
    · simp only [Bool.false_eq_true, false_iff, not_and]
      intro hr1 hr2
      rcases h2 with h2 | h2 <;> linarith
    · simp only [true_iff]
      push_neg at h2
      exact ⟨h2.1, h2.2, not_lt.mp h1⟩
  · intro w
    simp [matches_criteria, hr, hs, hw]

def aptC3 : Apartment :=
  ⟨"GESOBAU", "Probe 1", some 2, some 50, none, none, true, "u", "ab sofort"⟩

/-- Witness for C3: the boundary record with two rooms and fifty square
metres matches, and a huge warm rent does not change the result. -/
theorem wbs_branch_boundary_witness :
    (matches_criteria aptC3).1 = true ∧
    matches_criteria { aptC3 with warm_rent := some 100000 } = matches_criteria aptC3 :=
  ⟨((wbs_branch_boundary aptC3 2 50 rfl rfl rfl).1).mpr (by norm_num),
   (wbs_branch_boundary aptC3 2 50 rfl rfl rfl).2 (some 100000)⟩

def aptC1cx : Apartment :=
  ⟨"degewo", "Marktstr. 2", none, some 30, some 500, none, false, "u", "ab sofort"⟩

/-- Counterexample to C1 as stated: a market-branch record with warm rent
500 (within the 700 ceiling) but absent rooms is a non-match, while the
same record with rooms present matches — so an absent rooms value does
affect the outcome on this branch. -/
theorem market_branch_counterexample :
    aptC1cx.requires_wbs = false ∧
    aptC1cx.warm_rent = some 500 ∧ (500 : ℚ) ≤ 700 ∧
    (matches_criteria aptC1cx).1 = false ∧
    (matches_criteria { aptC1cx with rooms := some 1 }).1 = true := by
  decide

/-- C1 amended: on the market branch the warm-rent rule as claimed holds
whenever rooms and size are present (only their presence matters, not
their values), a missing warm rent is a non-match, but a record with
rooms or size absent is a non-match regardless of its warm rent, because
the float coercion of the absent value fails. -/
theorem market_branch_amended (a : Apartment) (hw : a.requires_wbs = false) :
    (∀ r s, a.rooms = some r → a.size = some s →
      ((matches_criteria a).1 = true ↔ ∃ w, a.warm_rent = some w ∧ w ≤ 700)) ∧
    (a.warm_rent = none → (matches_criteria a).1 = false) ∧
    ((a.rooms = none ∨ a.size = none) → (matches_criteria a).1 = false) := by
  refine ⟨?_, ?_, ?_⟩
  · intro r s hr hs
    simp only [matches_criteria, hr, hs, hw, CRITERIA_without_wbs_price_max, if_false,
      Bool.false_eq_true]
    cases hwr : a.warm_rent with
    | none => simp
    | some w =>
      dsimp only
      split_ifs with h
      · simp [h]
      · simp [h]
  · intro hwr
    cases hr : a.rooms with
    | none => simp [matches_criteria, hr]
    | some r =>
      cases hs : a.size with
      | none => simp [matches_criteria, hr, hs]
      | some s => simp [matches_criteria, hr, hs, hw, hwr]
  · intro h
    rcases h with h | h
    · simp [matches_criteria, h]
    · cases hr : a.rooms with
      | none => simp [matches_criteria, hr]
      | some r => simp [matches_criteria, hr, h]

def aptC1w : Apartment :=
  ⟨"WBM", "Hauptstr. 9", some 3, some 80, some 650, none, false, "u", "ab sofort"⟩

/-- Witness for the amended C1: a three-room, eighty square metre record
at 650 warm matches on the market branch, and the counterexample record
with absent rooms is a non-match. -/
theorem market_branch_amended_witness :
    (matches_criteria aptC1w).1 = true ∧ (matches_criteria aptC1cx).1 = false :=
  ⟨((market_branch_amended aptC1w rfl).1 3 80 rfl rfl).mpr ⟨650, rfl, by norm_num⟩,
   (market_branch_amended aptC1cx rfl).2.2 (Or.inl rfl)⟩

def aptC4cx : Apartment :=
  ⟨"GESOBAU", "Subv 5", none, some 30, none, none, true, "u", "ab sofort"⟩

/-- Counterexample to C4 as stated: a subsidy-branch record with absent
rooms is a non-match, but its reason is the generic coercion-error
message, which does not name a specific failed constraint. -/
theorem reason_text_counterexample :
    aptC4cx.requires_wbs = true ∧ aptC4cx.rooms = none ∧
    matches_criteria aptC4cx = (false, Reason.coercionError) ∧
    reasonNamesConstraint Reason.coercionError = false := by
  decide

/-- C4 amended: on the subsidy branch with rooms or size absent the
evaluator returns a non-match without raising (the exception is caught),
but the reason is the generic error text of the except branch, not a
message naming the failed constraint. -/
theorem absent_fields_generic_reason (a : Apartment) (_hw : a.requires_wbs = true)
    (h : a.rooms = none ∨ a.size = none) :
    matches_criteria a = (false, Reason.coercionError) := by
  rcases h with h | h
  · simp [matches_criteria, h]
  · cases hr : a.rooms with
    | none => simp [matches_criteria, hr]
    | some r => simp [matches_criteria, hr, h]

/-- Witness for the amended C4 at the concrete record. -/
theorem absent_fields_generic_reason_witness :
    matches_criteria aptC4cx = (false, Reason.coercionError) :=
  absent_fields_generic_reason aptC4cx rfl (Or.inl rfl)

def aptC2cx : Apartment :=
  check_howoge_item "N/A" "https://www.howoge.de/wohnungssuche/detail/123-456-789"
    "Wohnung in Berlin Lichtenberg"

/-- Counterexample to C2 as stated: the HOWOGE extractor produces a
record with rooms, size and warm rent all absent (nothing numeric in the
listing text), and the orchestrator fingerprints it, evaluates it and
marks it seen. -/
theorem drop_rule_counterexample :
    aptC2cx.rooms = none ∧ aptC2cx.size = none ∧ aptC2cx.warm_rent = none ∧
    (processRun [aptC2cx] ∅).evaluated = [aptC2cx] ∧
    runId aptC2cx ∈ (processRun [aptC2cx] ∅).seen := by
  decide

/-- C2 amended: only the inberlinwohnen extractor drops a record whose
rooms, size and warm rent are all absent; the degewo API branch keeps
every item, and a HOWOGE record is appended unconditionally and then
fingerprinted, evaluated and marked seen by the orchestrator. -/
theorem drop_rule_amended :
    (∀ company address url text,
      extract_rooms text = none → extract_size text = none →
      extract_warm_rent_ibw text = none →
      check_inberlinwohnen_item company address url text = []) ∧
    (∀ items : List DegewoItem, (check_degewo_api items).length = items.length) ∧
    (∀ address url text,
      (processRun [check_howoge_item address url text] ∅).evaluated =
        [check_howoge_item address url text] ∧
      runId (check_howoge_item address url text) ∈
        (processRun [check_howoge_item address url text] ∅).seen) := by
  refine ⟨?_, ?_, ?_⟩
  · intro company address url text h1 h2 h3
    unfold check_inberlinwohnen_item
    rw [h1, h2, h3]
    simp [pyTruthy]
  · intro items
    exact List.length_map _ _
  · intro address url text
    rw [processRun_single]
    exact ⟨rfl, Finset.mem_singleton_self _⟩

/-- Witness for the amended C2 at concrete listing texts without numeric
data. -/
theorem drop_rule_amended_witness :
    check_inberlinwohnen_item "degewo" "N/A" "https://x" "Wohnung in Berlin" = [] ∧
    (processRun [aptC2cx] ∅).evaluated = [aptC2cx] :=
  ⟨drop_rule_amended.1 "degewo" "N/A" "https://x" "Wohnung in Berlin"
      (by decide) (by decide) (by decide),
   (drop_rule_amended.2.2 "N/A" "https://www.howoge.de/wohnungssuche/detail/123-456-789"
      "Wohnung in Berlin Lichtenberg").1⟩

/-- C5: evaluation of the locale coercion at the two inputs of the
claim. The size text is normalized to 54.5 as claimed, but the price
text yields 234.56, not the claimed 1234.56: the price pattern can only
capture up to four digits, one separator and two digits, so it captures
234,56 from the thousands-grouped text, and the dot-deletion count
computed from the whole text removes no dot. -/
theorem locale_coercion_eval :
    extract_size "54,5 m²" = some (54.5 : ℚ) ∧
    extract_warm_rent_ibw "1.234,56 €" = some (234.56 : ℚ) ∧
    (234.56 : ℚ) ≠ 1234.56 := by
  refine ⟨?_, ?_, by norm_num⟩
  · have hsearch : reSearch groupSizeAt "54,5 m²".toList = some ['5', '4', ',', '5'] := by
      decide
    unfold extract_size
    rw [hsearch]
    show pyFloatOfChars (pyReplaceCharL ['5', '4', ',', '5'] ',' '.') = some (54.5 : ℚ)
    have hparts : pyFloatParts (pyReplaceCharL ['5', '4', ',', '5'] ',' '.') =
        some (54, 5, 1) := by decide
    unfold pyFloatOfChars
    rw [hparts]
    show some (partsToRat (54, 5, 1)) = some (54.5 : ℚ)
    norm_num [partsToRat]
  · have hsearch : reSearch (groupPriceAt true) "1.234,56 €".toList =
        some ['2', '3', '4', ',', '5', '6'] := by decide
    unfold extract_warm_rent_ibw
    rw [hsearch]
    show pyFloatOfChars
        (pyRemoveDots (pyReplaceCharL ['2', '3', '4', ',', '5', '6'] ',' '.')
          ((pyCountDots "1.234,56 €" : ℤ) - 1)) = some (234.56 : ℚ)
    have hparts : pyFloatParts
        (pyRemoveDots (pyReplaceCharL ['2', '3', '4', ',', '5', '6'] ',' '.')
          ((pyCountDots "1.234,56 €" : ℤ) - 1)) = some (234, 56, 2) := by decide
    unfold pyFloatOfChars
    rw [hparts]
    show some (partsToRat (234, 56, 2)) = some (234.56 : ℚ)
    norm_num [partsToRat]

def seenC9old : Finset String := {"0abc"}

def seenC9new : Finset String := {"0abc", "1def"}

lemma serialize_seen_ne_empty (s : Finset String) : serialize_seen s ≠ "" := by
  unfold serialize_seen
  intro h
  have hlen := congrArg String.length h
  rw [String.length_append, String.length_append] at hlen
  have h1 : ("\x7b\"apartments\": [" : String).length = 16 := rfl
  have h2 : ("]\x7d" : String).length = 2 := rfl
  have h3 : ("" : String).length = 0 := rfl
  rw [h1, h2, h3] at hlen
  omega

/-- Counterexample to C9 as stated: running only the truncation step of
the save sequence (an interruption right after the file is opened with
mode w) leaves the state file empty — neither the previously persisted
seen-set nor the new one — so prior history is corrupted, not just the
current run lost. -/
theorem seen_file_atomicity_counterexample :
    runFileOps (some (serialize_seen seenC9old))
        ((save_seen_apartments_ops seenC9new).take 1) = some "" ∧
    serialize_seen seenC9old ≠ "" ∧
    serialize_seen seenC9new ≠ "" :=
  ⟨rfl, serialize_seen_ne_empty _, serialize_seen_ne_empty _⟩

/-- C9 amended: save rewrites the state file in place — truncation
first, then the write of the new content — so a completed save persists
the new seen-set, but an interruption between the two steps leaves the
file truncated; a failure inside save is caught and logged, never fatal
to the run. -/
theorem save_truncates_in_place (s : Finset String) (prev : String) :
    save_seen_apartments_ops s = [FileOp.truncate, FileOp.writeAll (serialize_seen s)] ∧
    runFileOps (some prev) (save_seen_apartments_ops s) = some (serialize_seen s) ∧
    runFileOps (some prev) ((save_seen_apartments_ops s).take 1) = some "" :=
  ⟨rfl, rfl, rfl⟩
